import Mathlib

/-!
Shallow embedding of the picam_server repository (main.py, api_handlers.py,
camera_operations.py, config.py).

The mutable attributes of `CameraManager` (and the corresponding module-level
globals of main.py) are collected in `CamState`; the two video files on disk
(raw H264 capture at temp_path, transcoded MP4 at video_path) are modelled by
`FS` as optional sizes.  The capture device, the external transcoder (ffmpeg)
and the clock are collaborators: device interactions become Boolean fields,
the transcoder becomes an exit-code parameter that writes the output file on
success, and polling loops take an oracle of observed values per poll.
-/

/-- State of a `CameraManager` instance (camera_operations.py lines 21-40),
equally the module globals of main.py.  Device handles (`camera`,
`stream_camera`) are modelled as presence flags. -/
structure CamState where
  camera : Bool
  recording : Bool
  converting : Bool
  recording_start_time : Option Nat
  streaming : Bool
  stream_camera : Bool
  stream_lock : Bool
  width : Nat
  height : Nat
  fps : Nat
deriving Repr, DecidableEq

/-- The state `CameraManager.__init__` builds (defaults 1280x720@30). -/
def initial_state : CamState :=
  { camera := false, recording := false, converting := false
    recording_start_time := none, streaming := false, stream_camera := false
    stream_lock := false, width := 1280, height := 720, fps := 30 }

/-- The two files under the video directory: raw H264 capture (temp_path) and
transcoded MP4 (video_path), each `some size` when present on disk. -/
structure FS where
  raw : Option Nat
  out : Option Nat
deriving Repr, DecidableEq

/-- Externally visible capture mode, as projected by the /status handler. -/
inductive Mode
  | idle
  | recording
  | converting
deriving Repr, DecidableEq

/-- Status projection of api_handlers.py `get_status` (lines 196-215) and
main.py `get_status` (lines 287-306): converting takes precedence over
recording, else idle. -/
def get_status (s : CamState) : Mode :=
  if s.converting then .converting
  else if s.recording then .recording
  else .idle

/-- `ConfigValidator.VALID_RESOLUTIONS` (config.py line 69). -/
def VALID_RESOLUTIONS : List (Nat × Nat) := [(640, 480), (1280, 720), (1920, 1080)]

/-- `ConfigValidator.VALID_FPS` (config.py line 70). -/
def VALID_FPS : List Nat := [25, 30]

/-- `ConfigValidator.validate_resolution` (config.py lines 72-77): true iff no
ValueError is raised. -/
def validate_resolution (w h : Nat) : Bool := decide ((w, h) ∈ VALID_RESOLUTIONS)

/-- `ConfigValidator.validate_fps` (config.py lines 79-84). -/
def validate_fps (f : Nat) : Bool := decide (f ∈ VALID_FPS)

/-- Python truthiness of an optional JSON number (None and 0 are falsy). -/
def truthy : Option Nat → Bool
  | none => false
  | some n => n != 0

/-- `CameraManager.set_config` (camera_operations.py lines 56-68): raises
ValueError while recording, otherwise stores each supplied field as-is. -/
def CameraManager.set_config (s : CamState) (width height fps : Option Nat) :
    Except String CamState :=
  if s.recording then .error "Cannot change config while recording"
  else .ok { s with
    width := width.getD s.width
    height := height.getD s.height
    fps := fps.getD s.fps }

/-- Outcome of a /setconfig request. -/
inductive SetConfigResult
  | ok
  | rejected_recording
  | invalid_value
deriving Repr, DecidableEq

/-- `APIHandlers.set_config` (api_handlers.py lines 152-194): rejects while
`is_recording()`; validates the resolution only when BOTH width and height are
truthy, the fps only when truthy; then stores via `CameraManager.set_config`
(whose ValueError would be caught as a 400). -/
def APIHandlers.set_config (s : CamState) (width height fps : Option Nat) :
    SetConfigResult × CamState :=
  if s.recording then (.rejected_recording, s)
  else if truthy width && truthy height
      && !validate_resolution (width.getD 0) (height.getD 0) then
    (.invalid_value, s)
  else if truthy fps && !validate_fps (fps.getD 0) then
    (.invalid_value, s)
  else
    match CameraManager.set_config s width height fps with
    | .ok s2 => (.ok, s2)
    | .error _ => (.invalid_value, s)

/-- main.py `set_config` (lines 253-285): rejects while recording; fills
missing fields from the current globals and always validates the combined
(width, height) pair and the fps before storing. -/
def main_set_config (s : CamState) (width height fps : Option Nat) :
    SetConfigResult × CamState :=
  if s.recording then (.rejected_recording, s)
  else
    let w := width.getD s.width
    let h := height.getD s.height
    let f := fps.getD s.fps
    if !validate_resolution w h then (.invalid_value, s)
    else if !validate_fps f then (.invalid_value, s)
    else (.ok, { s with width := w, height := h, fps := f })

/-- `CameraManager.start_recording_session` (camera_operations.py lines
71-101): raises ValueError if already recording; otherwise acquires the
device, records the start time (`now`) and begins raw capture to temp_path
(creating/truncating the raw file). -/
def start_recording_session (s : CamState) (fs : FS) (now : Nat) :
    Except String (CamState × FS) :=
  if s.recording then .error "Already recording"
  else .ok
    ({ s with camera := true, recording_start_time := some now, recording := true },
     { fs with raw := some 0 })

/-- `CameraManager.request_stop` (camera_operations.py lines 125-131): raises
ValueError if not recording, otherwise only clears the recording flag. -/
def request_stop (s : CamState) : Except String CamState :=
  if s.recording then .ok { s with recording := false }
  else .error "Not recording"

/-- `CameraManager.cleanup` (camera_operations.py lines 231-244): clears the
recording and converting flags and the start time unconditionally; closes and
drops the device handle, except that a close exception (`close_fails`) leaves
the handle assigned. -/
def cleanup (s : CamState) (close_fails : Bool) : CamState :=
  { s with recording := false, converting := false, recording_start_time := none
           camera := s.camera && close_fails }

/-- One run of the `while check_count < max_checks` loop body of
`CameraManager._wait_for_file_stability` (camera_operations.py lines 210-224).
`sz i` is the output-file size observed by the i-th `os.path.getsize` call;
`fuel` is `max_checks - check_count`.  Returns `some polls` (the total number
of size observations made) when the loop breaks on stability, `none` when the
checks are exhausted. -/
def stabGo (sz : Nat → Nat) : Option Nat → Nat → Nat → Nat → Option Nat
  | _, _, _, 0 => none
  | stable_size, stable_count, i, fuel + 1 =>
    let current := sz i
    if stable_size = some current then
      if stable_count + 1 ≥ 3 then some (i + 1)
      else stabGo sz (some current) (stable_count + 1) (i + 1) fuel
    else stabGo sz (some current) 1 (i + 1) fuel

/-- `CameraManager._wait_for_file_stability` (camera_operations.py lines
202-229): `stable_size = None`, `stable_count = 0`, `check_count = 0`,
`max_checks = 20`. -/
def wait_for_file_stability (sz : Nat → Nat) : Option Nat :=
  stabGo sz none 0 0 20

/-- Result of a finalization run: the post-state, the filesystem, how many
times the external transcoder was invoked, whether the stability wait ran
(and its result), and whether a failure was logged. -/
structure FinalizeResult where
  state : CamState
  fs : FS
  transcoder_calls : Nat
  stability_polls : Option (Option Nat)
  failure_logged : Bool
deriving Repr, DecidableEq

/-- `CameraManager._convert_video` (camera_operations.py lines 163-200).  The
external transcoder is the collaborator `Transcode(input, output) -> Result`:
exit code `rc`; on success (rc = 0) it writes the output file with size
`out_size`, on failure it produces no output.  On success the stability wait
runs (the output file exists); on failure the converting flag is cleared, the
error is logged, no stability wait and no retry happen, and the filesystem is
untouched (in particular the raw file is preserved). -/
def convert_video (s : CamState) (fs : FS) (rc : Nat) (out_size : Nat)
    (sz : Nat → Nat) : FinalizeResult :=
  let s1 : CamState := { s with converting := true }
  if rc = 0 then
    let fs1 : FS := { fs with out := some out_size }
    let polls := if fs1.out.isSome then some (wait_for_file_stability sz) else none
    { state := { s1 with converting := false }, fs := fs1
      transcoder_calls := 1, stability_polls := polls, failure_logged := false }
  else
    { state := { s1 with converting := false }, fs := fs
      transcoder_calls := 1, stability_polls := none, failure_logged := true }

/-- `CameraManager.finalize_recording` (camera_operations.py lines 133-161):
early-returns with a warning if still recording; stops the device (errors
caught); if the raw file is missing, logs the failure and returns WITHOUT
invoking the transcoder; otherwise runs `_convert_video`. -/
def finalize_recording (s : CamState) (fs : FS) (rc : Nat) (out_size : Nat)
    (sz : Nat → Nat) : FinalizeResult :=
  if s.recording then
    { state := s, fs := fs, transcoder_calls := 0, stability_polls := none
      failure_logged := false }
  else if fs.raw = none then
    { state := s, fs := fs, transcoder_calls := 0, stability_polls := none
      failure_logged := true }
  else convert_video s fs rc out_size sz

/-- Body of the worker thread spawned by `CameraManager.start_recording_thread`
(camera_operations.py lines 103-123): start the session, wait until the
recording flag is cleared by `request_stop`, then finalize; any exception is
caught and `cleanup` runs.  `start_fails` models an exception during device
initialization inside `start_recording_session` (after the handle is created
and the start time set, before the recording flag is set); `finalize_fails`
models an exception escaping `finalize_recording`. -/
def record_video_thread (s : CamState) (fs : FS) (now : Nat)
    (start_fails finalize_fails close_fails : Bool)
    (rc : Nat) (out_size : Nat) (sz : Nat → Nat) : CamState × FS :=
  if start_fails then
    (cleanup { s with camera := true, recording_start_time := some now } close_fails, fs)
  else
    match start_recording_session s fs now with
    | .error _ => (cleanup s close_fails, fs)
    | .ok (s1, fs1) =>
      let s2 : CamState := { s1 with recording := false }
      if finalize_fails then (cleanup s2 close_fails, fs1)
      else
        let r := finalize_recording s2 fs1 rc out_size sz
        (r.state, r.fs)

/-- Outcome of the /start handler. -/
inductive StartResult
  | accepted
  | busy
deriving Repr, DecidableEq

/-- main.py `start_recording` (lines 152-165) together with the successful
prefix of `record_video` (lines 60-80): rejected with "already recording" if
the recording flag is set; otherwise the flag is set, the device initialized,
the start time recorded and raw capture begun. -/
def main_start_recording (s : CamState) (fs : FS) (now : Nat) :
    StartResult × CamState × FS :=
  if s.recording then (.busy, s, fs)
  else
    (.accepted,
     { s with recording := true, camera := true, recording_start_time := some now },
     { fs with raw := some 0 })

/-- Outcome of a download request. -/
inductive DownloadResult
  | file (size : Nat)
  | convertingBusy
  | stillRecording
  | notFound
deriving Repr, DecidableEq

/-- `APIHandlers.download_video` / main.py `download_video` (api_handlers.py
lines 83-111): rejected while converting; serves video_path if it exists. -/
def download_video (s : CamState) (fs : FS) : DownloadResult :=
  if s.converting then .convertingBusy
  else
    match fs.out with
    | some n => .file n
    | none => .notFound

/-- `APIHandlers.download_raw_video` / main.py `download_raw_video`
(api_handlers.py lines 113-141): rejected while recording; serves temp_path
if it exists. -/
def download_raw_video (s : CamState) (fs : FS) : DownloadResult :=
  if s.recording then .stillRecording
  else
    match fs.raw with
    | some n => .file n
    | none => .notFound

/-- How the init section of `generate_stream` ended for one subscriber. -/
inductive StreamEntry
  | opened
  | reused
  | unavailable
deriving Repr, DecidableEq

/-- The `while self.stream_lock and wait_count < 50` wait loop of
`CameraManager.generate_stream` (camera_operations.py lines 298-301).
`lockAt w` is the value of `stream_lock` read after `w` sleeps of 0.1s;
returns the final `wait_count`. -/
def stream_wait_go (lockAt : Nat → Bool) (w : Nat) : Nat → Nat
  | 0 => w
  | fuel + 1 => if lockAt w then stream_wait_go lockAt (w + 1) fuel else w

/-- The wait loop started at `wait_count = 0`, bounded by 50 polls. -/
def stream_wait (lockAt : Nat → Bool) : Nat := stream_wait_go lockAt 0 50

/-- The init section of `CameraManager.generate_stream` (camera_operations.py
lines 266-307): if no stream camera exists and no init is in flight, this
subscriber opens the device (stream_lock set for the duration and cleared in
the finally), sleeps 2s to stabilize and sets streaming; otherwise it runs the
wait loop and then either fails with no frames (`stream_camera` still None
after the wait — `camReady w` false) or reuses the existing device.  `lockAt`
and `camReady` are oracles for the concurrently mutated `stream_lock` and
`stream_camera` fields as seen after `w` polls. -/
def generate_stream_entry (s : CamState) (lockAt : Nat → Bool)
    (camReady : Nat → Bool) : StreamEntry × CamState :=
  if !s.stream_camera && !s.stream_lock then
    (.opened, { s with stream_camera := true, streaming := true, stream_lock := false })
  else
    let w := stream_wait lockAt
    if camReady w then (.reused, s) else (.unavailable, s)

/-- `CameraManager.stop_stream` (camera_operations.py lines 421-436): clears
the streaming flag; if a stream camera exists it is stopped, closed and
dropped and the lock cleared (in the finally, so also on a close error). -/
def stop_stream (s : CamState) : CamState :=
  { s with streaming := false, stream_camera := false
           stream_lock := if s.stream_camera then false else s.stream_lock }

/-- Events of the streaming multiplexer as seen at the shared state. -/
inductive StreamEvent
  | subscribe
  | disconnect
  | stopStream
deriving Repr, DecidableEq

/-- Shared streaming state together with counts of device opens and closes. -/
structure StreamStats where
  state : CamState
  opens : Nat
  closes : Nat
deriving Repr, DecidableEq

/-- Sequential semantics of the streaming events on the shared state.
`subscribe` runs the init section of `generate_stream` (the oracles are
constant because no init is concurrently in flight between events);
`disconnect` is a client's GeneratorExit (camera_operations.py lines 358-361,
386-387): it breaks that client's frame loop only — the shared state is not
touched, and in particular the device is NOT closed; `stopStream` is an
explicit `stop_stream()` call, which closes the device if present. -/
def stream_step (st : StreamStats) : StreamEvent → StreamStats
  | .subscribe =>
    let r := generate_stream_entry st.state (fun _ => st.state.stream_lock)
      (fun _ => st.state.stream_camera)
    { st with state := r.2, opens := st.opens + (if r.1 = .opened then 1 else 0) }
  | .disconnect => st
  | .stopStream =>
    { st with state := stop_stream st.state
              closes := st.closes + (if st.state.stream_camera then 1 else 0) }

/-- A whole trace of streaming events from a start state. -/
def stream_run (st : StreamStats) (evs : List StreamEvent) : StreamStats :=
  evs.foldl stream_step st

/-! ## Theorems -/

/-- C1 (counterexample): with a conversion job running (mode `converting`,
which is not `idle`) and no recording active, a SetConfig call is ACCEPTED and
mutates the stored width and height, because every set_config variant guards
only on the recording flag. -/
theorem setConfig_during_converting_accepted :
    get_status { initial_state with converting := true } = .converting ∧
    (APIHandlers.set_config { initial_state with converting := true }
      (some 640) (some 480) none).1 = .ok ∧
    (APIHandlers.set_config { initial_state with converting := true }
      (some 640) (some 480) none).2.width = 640 ∧
    (main_set_config { initial_state with converting := true }
      (some 640) (some 480) none).1 = .ok ∧
    initial_state.width = 1280 := by
  decide

/-- C1 (amended): a SetConfig call made while a RECORDING is active always
fails with a rejection and leaves the stored configuration unchanged, in the
API handler, in the main.py handler and in `CameraManager.set_config`; only
the recording flag gates configuration changes, so a call during conversion
is accepted. -/
theorem setConfig_while_recording_rejected_unchanged (s : CamState)
    (w h f : Option Nat) (hrec : s.recording = true) :
    APIHandlers.set_config s w h f = (.rejected_recording, s) ∧
    main_set_config s w h f = (.rejected_recording, s) ∧
    CameraManager.set_config s w h f = .error "Cannot change config while recording" := by
  simp [APIHandlers.set_config, main_set_config, CameraManager.set_config, hrec]

/-- Witness for the amended C1 theorem at a concrete recording state. -/
theorem setConfig_while_recording_rejected_unchanged_witness :
    APIHandlers.set_config { initial_state with recording := true }
        (some 640) (some 480) (some 25) =
      (.rejected_recording, { initial_state with recording := true }) ∧
    main_set_config { initial_state with recording := true }
        (some 640) (some 480) (some 25) =
      (.rejected_recording, { initial_state with recording := true }) ∧
    CameraManager.set_config { initial_state with recording := true }
        (some 640) (some 480) (some 25) =
      .error "Cannot change config while recording" :=
  setConfig_while_recording_rejected_unchanged
    { initial_state with recording := true } (some 640) (some 480) (some 25) rfl

/-- C9 (confirmed): a SetConfig through the API handler while not recording
that supplies only a width (height absent) skips resolution validation and
stores the width as-is; one that supplies a falsy width 0 together with any
height also skips validation and stores both as-is — and the stored pair
(0, h2) lies outside the valid resolution set for every h2. -/
theorem setConfig_partial_dimension_skips_validation (s : CamState)
    (w h2 : Nat) (hrec : s.recording = false) :
    APIHandlers.set_config s (some w) none none = (.ok, { s with width := w }) ∧
    APIHandlers.set_config s (some 0) (some h2) none =
      (.ok, { s with width := 0, height := h2 }) ∧
    validate_resolution 0 h2 = false := by
  refine ⟨?_, ?_, ?_⟩ <;>
    simp [APIHandlers.set_config, CameraManager.set_config, truthy,
      validate_resolution, VALID_RESOLUTIONS, hrec]

/-- Witness for C9: from the default configuration, width 999 alone is stored
(yielding the invalid pair (999, 720)), and width 0 with height 333 is stored
(yielding the invalid pair (0, 333)). -/
theorem setConfig_partial_dimension_skips_validation_witness :
    (APIHandlers.set_config initial_state (some 999) none none =
        (.ok, { initial_state with width := 999 }) ∧
      APIHandlers.set_config initial_state (some 0) (some 333) none =
        (.ok, { initial_state with width := 0, height := 333 }) ∧
      validate_resolution 0 333 = false) ∧
    validate_resolution 999 720 = false :=
  ⟨setConfig_partial_dimension_skips_validation initial_state 999 333 rfl,
   by decide⟩

/-- C6 (confirmed): a StartRecording issued while a recording is already
active returns Busy in the main.py handler without touching the state or the
files (so the active session's flag, start time and raw file are unchanged
and capture is not re-opened), and `CameraManager.start_recording_session`
raises "Already recording" likewise without mutation.  The active-recording
indicator is the single Boolean `recording` flag, so at most one recording is
active at any time. -/
theorem start_while_recording_busy (s : CamState) (fs : FS) (now : Nat)
    (hrec : s.recording = true) :
    main_start_recording s fs now = (.busy, s, fs) ∧
    start_recording_session s fs now = .error "Already recording" := by
  simp [main_start_recording, start_recording_session, hrec]

/-- Witness for C6 at a concrete active-recording state. -/
theorem start_while_recording_busy_witness :
    main_start_recording
        { initial_state with recording := true, recording_start_time := some 100 }
        { raw := some 5, out := none } 200 =
      (.busy, { initial_state with recording := true, recording_start_time := some 100 },
       { raw := some 5, out := none }) ∧
    start_recording_session
        { initial_state with recording := true, recording_start_time := some 100 }
        { raw := some 5, out := none } 200 =
      .error "Already recording" :=
  start_while_recording_busy
    { initial_state with recording := true, recording_start_time := some 100 }
    { raw := some 5, out := none } 200 rfl

/-- C4 (confirmed): when the raw capture file does not exist at finalization
time (recording already stopped, conversion not yet started), the
finalization pipeline short-circuits: the external transcoder is invoked zero
times, the failure is logged, and the state is left with both flags clear so
Capture Mode is `idle`. -/
theorem finalize_missing_raw_short_circuits (s : CamState) (fs : FS)
    (rc out_size : Nat) (sz : Nat → Nat)
    (hrec : s.recording = false) (hconv : s.converting = false)
    (hraw : fs.raw = none) :
    finalize_recording s fs rc out_size sz =
      { state := s, fs := fs, transcoder_calls := 0, stability_polls := none
        failure_logged := true } ∧
    get_status s = .idle := by
  simp [finalize_recording, get_status, hrec, hconv, hraw]

/-- Witness for C4 at a concrete state with no raw file. -/
theorem finalize_missing_raw_short_circuits_witness :
    finalize_recording initial_state { raw := none, out := none } 0 42 (fun _ => 7) =
      { state := initial_state, fs := { raw := none, out := none }
        transcoder_calls := 0, stability_polls := none, failure_logged := true } ∧
    get_status initial_state = .idle :=
  finalize_missing_raw_short_circuits initial_state { raw := none, out := none }
    0 42 (fun _ => 7) rfl rfl rfl

/-- C5 (confirmed): a non-zero transcoder exit code is terminal — the
transcoder is invoked exactly once (no retry), the failure is logged, the
stabilization phase never runs, the converting flag is cleared so the mode
returns to `idle`, the raw file is preserved on disk and stays downloadable
via DownloadRaw, and no output file appears, so DownloadFinal returns
NotFound. -/
theorem transcode_failure_terminal (s : CamState) (fs : FS)
    (rc out_size r : Nat) (sz : Nat → Nat)
    (hrec : s.recording = false)
    (hrc : rc ≠ 0) (hraw : fs.raw = some r) (hout : fs.out = none) :
    (finalize_recording s fs rc out_size sz).transcoder_calls = 1 ∧
    (finalize_recording s fs rc out_size sz).failure_logged = true ∧
    (finalize_recording s fs rc out_size sz).stability_polls = none ∧
    get_status (finalize_recording s fs rc out_size sz).state = .idle ∧
    (finalize_recording s fs rc out_size sz).fs.raw = some r ∧
    (finalize_recording s fs rc out_size sz).fs.out = none ∧
    download_video (finalize_recording s fs rc out_size sz).state
      (finalize_recording s fs rc out_size sz).fs = .notFound ∧
    download_raw_video (finalize_recording s fs rc out_size sz).state
      (finalize_recording s fs rc out_size sz).fs = .file r := by
  simp [finalize_recording, convert_video, download_video, download_raw_video,
    get_status, hrec, hrc, hraw, hout]

/-- Witness for C5: transcoder exits with code 1 on a state holding a raw
file of size 1234 and no output file. -/
theorem transcode_failure_terminal_witness :
    (finalize_recording initial_state { raw := some 1234, out := none }
        1 42 (fun _ => 7)).transcoder_calls = 1 ∧
    (finalize_recording initial_state { raw := some 1234, out := none }
        1 42 (fun _ => 7)).failure_logged = true ∧
    (finalize_recording initial_state { raw := some 1234, out := none }
        1 42 (fun _ => 7)).stability_polls = none ∧
    get_status (finalize_recording initial_state { raw := some 1234, out := none }
        1 42 (fun _ => 7)).state = .idle ∧
    (finalize_recording initial_state { raw := some 1234, out := none }
        1 42 (fun _ => 7)).fs.raw = some 1234 ∧
    (finalize_recording initial_state { raw := some 1234, out := none }
        1 42 (fun _ => 7)).fs.out = none ∧
    download_video (finalize_recording initial_state { raw := some 1234, out := none }
        1 42 (fun _ => 7)).state
      (finalize_recording initial_state { raw := some 1234, out := none }
        1 42 (fun _ => 7)).fs = .notFound ∧
    download_raw_video (finalize_recording initial_state { raw := some 1234, out := none }
        1 42 (fun _ => 7)).state
      (finalize_recording initial_state { raw := some 1234, out := none }
        1 42 (fun _ => 7)).fs = .file 1234 :=
  transcode_failure_terminal initial_state { raw := some 1234, out := none }
    1 42 1234 (fun _ => 7) rfl (by decide) rfl rfl

/-- One loop iteration when the observed size differs from the tracked one:
the tracked size is replaced and the run count restarts at 1. -/
theorem stabGo_step_ne (sz : Nat → Nat) (stable : Option Nat) (cnt i fuel : Nat)
    (h : stable ≠ some (sz i)) :
    stabGo sz stable cnt i (fuel + 1) = stabGo sz (some (sz i)) 1 (i + 1) fuel := by
  simp [stabGo, h]

/-- One loop iteration when the observed size matches but the run is still
short: the count is incremented. -/
theorem stabGo_step_eq_lt (sz : Nat → Nat) (stable : Option Nat) (cnt i fuel : Nat)
    (h : stable = some (sz i)) (hcnt : cnt + 1 < 3) :
    stabGo sz stable cnt i (fuel + 1) = stabGo sz (some (sz i)) (cnt + 1) (i + 1) fuel := by
  simp [stabGo, h, Nat.not_le.mpr hcnt]

/-- One loop iteration that completes the run of 3: the loop breaks after
this (i+1)-th observation. -/
theorem stabGo_step_eq_ge (sz : Nat → Nat) (stable : Option Nat) (cnt i fuel : Nat)
    (h : stable = some (sz i)) (hcnt : 3 ≤ cnt + 1) :
    stabGo sz stable cnt i (fuel + 1) = some (i + 1) := by
  simp [stabGo, h, hcnt]

/-- C3 (confirmed): for every observed size sequence that changes at poll 1
and again at poll 2 and then stays constant, the stabilization loop breaks at
exactly the 5th poll — that is, after exactly 3 consecutive polls (the 3rd,
4th and 5th observations) reporting the final size unchanged since the last
change — and not before, and not by timeout. -/
theorem stability_three_consecutive_polls (sz : Nat → Nat)
    (h01 : sz 0 ≠ sz 1) (h12 : sz 1 ≠ sz 2)
    (hconst : ∀ j, 2 ≤ j → sz j = sz 2) :
    wait_for_file_stability sz = some 5 := by
  have h3 : sz 3 = sz 2 := hconst 3 (by omega)
  have h4 : sz 4 = sz 2 := hconst 4 (by omega)
  have e20 : (20 : Nat) = 19 + 1 := rfl
  have e19 : (19 : Nat) = 18 + 1 := rfl
  have e18 : (18 : Nat) = 17 + 1 := rfl
  have e17 : (17 : Nat) = 16 + 1 := rfl
  have e16 : (16 : Nat) = 15 + 1 := rfl
  rw [wait_for_file_stability, e20,
    stabGo_step_ne sz none 0 0 19 (by simp), e19,
    stabGo_step_ne sz (some (sz 0)) 1 1 18 (by simp [h01]), e18,
    stabGo_step_ne sz (some (sz 1)) 1 2 17 (by simp [h12]), e17,
    stabGo_step_eq_lt sz (some (sz 2)) 1 3 16 (by simp [h3]) (by omega), e16,
    stabGo_step_eq_ge sz (some (sz 3)) 2 4 15 (by simp [h3, h4]) (by omega)]

/-- An example size sequence for C3: 10, 20, then constantly 30. -/
def sz_changes_twice : Nat → Nat :=
  fun i => if i = 0 then 10 else if i = 1 then 20 else 30

/-- Witness for C3: the example sequence stabilizes at exactly the 5th poll. -/
theorem stability_three_consecutive_polls_witness :
    wait_for_file_stability sz_changes_twice = some 5 :=
  stability_three_consecutive_polls sz_changes_twice (by decide) (by decide)
    (fun j hj => by
      have hj0 : j ≠ 0 := by omega
      have hj1 : j ≠ 1 := by omega
      simp [sz_changes_twice, hj0, hj1])

/-- C7 (confirmed): whatever error interrupts the recording worker — an
exception during device initialization at recording start, or an exception
escaping finalization — the thread's except-handler runs `cleanup`, which
clears both the recording and the converting flag, so the projected Capture
Mode is `idle` and never stuck non-idle; this holds for every prior state,
filesystem, transcoder exit code and close outcome. -/
theorem thread_error_resets_to_idle (s : CamState) (fs : FS) (now : Nat)
    (start_fails finalize_fails close_fails : Bool) (rc out_size : Nat)
    (sz : Nat → Nat)
    (herr : start_fails = true ∨ finalize_fails = true) :
    (record_video_thread s fs now start_fails finalize_fails close_fails
        rc out_size sz).1.recording = false ∧
    (record_video_thread s fs now start_fails finalize_fails close_fails
        rc out_size sz).1.converting = false ∧
    get_status (record_video_thread s fs now start_fails finalize_fails
        close_fails rc out_size sz).1 = .idle := by
  by_cases hsf : start_fails = true
  · simp [record_video_thread, hsf, cleanup, get_status]
  · have hff : finalize_fails = true := herr.resolve_left hsf
    have hsf' : start_fails = false := by
      cases start_fails
      · rfl
      · exact absurd rfl hsf
    by_cases hrec : s.recording
    · simp [record_video_thread, hsf', hff, start_recording_session, hrec,
        cleanup, get_status]
    · simp [record_video_thread, hsf', hff, start_recording_session, hrec,
        cleanup, get_status]

/-- Witness for C7: a start-time device failure from the initial state leaves
mode idle. -/
theorem thread_error_resets_to_idle_witness :
    (record_video_thread initial_state { raw := none, out := none } 100
        true false false 0 42 (fun _ => 7)).1.recording = false ∧
    (record_video_thread initial_state { raw := none, out := none } 100
        true false false 0 42 (fun _ => 7)).1.converting = false ∧
    get_status (record_video_thread initial_state { raw := none, out := none }
        100 true false false 0 42 (fun _ => 7)).1 = .idle :=
  thread_error_resets_to_idle initial_state { raw := none, out := none } 100
    true false false 0 42 (fun _ => 7) (Or.inl rfl)

/-- The wait loop performs at most `fuel` further polls. -/
theorem stream_wait_go_le (lockAt : Nat → Bool) (w fuel : Nat) :
    stream_wait_go lockAt w fuel ≤ w + fuel := by
  induction fuel generalizing w with
  | zero => simp [stream_wait_go]
  | succ n ih =>
    rw [stream_wait_go]
    cases hl : lockAt w
    · simp only [Bool.false_eq_true, if_false]
      omega
    · simp only [if_true]
      have := ih (w + 1)
      omega

/-- C8 (confirmed): a subscriber that enters `generate_stream` while
initialization is in progress (`stream_lock` set) does not take the open
path; it waits by polling for at most 50 polls of 0.1s, and if the stream
device still does not exist after the wait, its stream ends with
`unavailable` (no frames) and the shared state — in particular the device
handle — is untouched, so no second device is opened. -/
theorem second_subscriber_bounded_wait_unavailable (s : CamState)
    (lockAt camReady : Nat → Bool) (hlock : s.stream_lock = true)
    (hnever : camReady (stream_wait lockAt) = false) :
    stream_wait lockAt ≤ 50 ∧
    generate_stream_entry s lockAt camReady = (.unavailable, s) ∧
    (generate_stream_entry s lockAt camReady).1 ≠ .opened ∧
    (generate_stream_entry s lockAt camReady).2.stream_camera = s.stream_camera := by
  have hwait : stream_wait lockAt ≤ 50 := by
    have := stream_wait_go_le lockAt 0 50
    simpa [stream_wait] using this
  have hentry : generate_stream_entry s lockAt camReady = (.unavailable, s) := by
    simp [generate_stream_entry, hlock, hnever]
  refine ⟨hwait, hentry, ?_, ?_⟩
  · simp [hentry]
  · simp [hentry]

/-- Witness for C8: the lock never clears and the camera never appears; the
subscriber waits the full 50 polls and fails with `unavailable`. -/
theorem second_subscriber_bounded_wait_unavailable_witness :
    stream_wait (fun _ => true) ≤ 50 ∧
    generate_stream_entry { initial_state with stream_lock := true }
        (fun _ => true) (fun _ => false) =
      (.unavailable, { initial_state with stream_lock := true }) ∧
    (generate_stream_entry { initial_state with stream_lock := true }
        (fun _ => true) (fun _ => false)).1 ≠ .opened ∧
    (generate_stream_entry { initial_state with stream_lock := true }
        (fun _ => true) (fun _ => false)).2.stream_camera =
      ({ initial_state with stream_lock := true } : CamState).stream_camera :=
  second_subscriber_bounded_wait_unavailable
    { initial_state with stream_lock := true } (fun _ => true) (fun _ => false)
    rfl rfl

/-- C10 (confirmed): no finalization path deletes the raw capture file — for
every transcoder exit code (success included) the raw file's presence and
size are unchanged by `finalize_recording` and `_convert_video` — and
DownloadRaw serves it whenever no recording is active.  (The download
handlers and `cleanup`/`stop_stream` take no filesystem at all in the
embedding, mirroring that the source contains no file deletion; the only
writer to the raw path is `start_recording_session` of the next session.) -/
theorem raw_file_never_deleted (s : CamState) (fs : FS) (rc out_size n : Nat)
    (sz : Nat → Nat) (hrec : s.recording = false) (hraw : fs.raw = some n) :
    (finalize_recording s fs rc out_size sz).fs.raw = some n ∧
    (convert_video s fs rc out_size sz).fs.raw = some n ∧
    download_raw_video s fs = .file n := by
  have hconv : (convert_video s fs rc out_size sz).fs.raw = some n := by
    by_cases hrc : rc = 0 <;> simp [convert_video, hrc, hraw]
  refine ⟨?_, hconv, ?_⟩
  · simp [finalize_recording, hrec, hraw, hconv]
  · simp [download_raw_video, hrec, hraw]

/-- Witness for C10: a successful transcode from a state holding a raw file
of size 1234 preserves it, and DownloadRaw serves it. -/
theorem raw_file_never_deleted_witness :
    (finalize_recording initial_state { raw := some 1234, out := none }
        0 42 (fun _ => 7)).fs.raw = some 1234 ∧
    (convert_video initial_state { raw := some 1234, out := none }
        0 42 (fun _ => 7)).fs.raw = some 1234 ∧
    download_raw_video initial_state { raw := some 1234, out := none } =
      .file 1234 :=
  raw_file_never_deleted initial_state { raw := some 1234, out := none }
    0 42 1234 (fun _ => 7) rfl rfl

/-- C2 (counterexample): one subscriber subscribes (the device is opened
once) and then unsubscribes by disconnecting — it is the Nth = 1st = last
subscriber — yet zero device closes happen and the stream camera is still
open afterwards: a disconnect only ends that client's generator, and the
device is closed only by an explicit stop call. -/
theorem stream_disconnect_does_not_close_device :
    (stream_run ⟨initial_state, 0, 0⟩ [.subscribe, .disconnect]).opens = 1 ∧
    (stream_run ⟨initial_state, 0, 0⟩ [.subscribe, .disconnect]).closes = 0 ∧
    (stream_run ⟨initial_state, 0, 0⟩
      [.subscribe, .disconnect]).state.stream_camera = true := by
  decide

/-- A subscribe while the stream camera is already open reuses it: no open,
no state change. -/
theorem stream_step_subscribe_reuse (st : StreamStats)
    (hc : st.state.stream_camera = true) :
    stream_step st .subscribe = st := by
  simp [stream_step, generate_stream_entry, hc]

/-- Any trace of subscribes and disconnects (no stop) from a state with the
device open leaves the state, open count and close count unchanged. -/
theorem stream_run_no_stop (evs : List StreamEvent) (st : StreamStats)
    (hc : st.state.stream_camera = true)
    (hno : ∀ e ∈ evs, e ≠ StreamEvent.stopStream) :
    stream_run st evs = st := by
  induction evs generalizing st with
  | nil => rfl
  | cons e evs ih =>
    have hne : e ≠ StreamEvent.stopStream := hno e (List.mem_cons_self e evs)
    have hno' : ∀ e' ∈ evs, e' ≠ StreamEvent.stopStream :=
      fun e' he' => hno e' (List.mem_cons_of_mem e he')
    cases e with
    | subscribe =>
      rw [stream_run, List.foldl_cons, stream_step_subscribe_reuse st hc]
      exact ih st hc hno'
    | disconnect =>
      rw [stream_run, List.foldl_cons]
      exact ih st hc hno'
    | stopStream => exact absurd rfl hne

/-- C2 (amended): a first Subscribe from the fresh state opens the device
exactly once; any further subscribes reuse it and any disconnects — the last
subscriber's included — neither close the device nor change the shared state,
so after the whole trace the open count is 1, the close count is 0 and the
device is still open; the single close happens exactly when `stop_stream` is
explicitly called, which closes the device. -/
theorem stream_single_open_close_only_on_stop (evs : List StreamEvent)
    (hno : ∀ e ∈ evs, e ≠ StreamEvent.stopStream) :
    (stream_run ⟨initial_state, 0, 0⟩ (.subscribe :: evs)).opens = 1 ∧
    (stream_run ⟨initial_state, 0, 0⟩ (.subscribe :: evs)).closes = 0 ∧
    (stream_run ⟨initial_state, 0, 0⟩
      (.subscribe :: evs)).state.stream_camera = true ∧
    (stream_step (stream_run ⟨initial_state, 0, 0⟩ (.subscribe :: evs))
      .stopStream).closes = 1 ∧
    (stream_step (stream_run ⟨initial_state, 0, 0⟩ (.subscribe :: evs))
      .stopStream).state.stream_camera = false := by
  have h1 : stream_step ⟨initial_state, 0, 0⟩ .subscribe =
      ⟨{ initial_state with stream_camera := true, streaming := true }, 1, 0⟩ := by
    decide
  have h2 : stream_run ⟨initial_state, 0, 0⟩ (.subscribe :: evs) =
      ⟨{ initial_state with stream_camera := true, streaming := true }, 1, 0⟩ := by
    rw [stream_run, List.foldl_cons, h1]
    exact stream_run_no_stop evs _ rfl hno
  rw [h2]
  refine ⟨rfl, rfl, rfl, ?_, ?_⟩ <;> decide

/-- Witness for the amended C2 theorem: the trace with one further disconnect
after the first subscribe. -/
theorem stream_single_open_close_only_on_stop_witness :
    (stream_run ⟨initial_state, 0, 0⟩ (.subscribe :: [.disconnect])).opens = 1 ∧
    (stream_run ⟨initial_state, 0, 0⟩ (.subscribe :: [.disconnect])).closes = 0 ∧
    (stream_run ⟨initial_state, 0, 0⟩
      (.subscribe :: [.disconnect])).state.stream_camera = true ∧
    (stream_step (stream_run ⟨initial_state, 0, 0⟩ (.subscribe :: [.disconnect]))
      .stopStream).closes = 1 ∧
    (stream_step (stream_run ⟨initial_state, 0, 0⟩ (.subscribe :: [.disconnect]))
      .stopStream).state.stream_camera = false :=
  stream_single_open_close_only_on_stop [.disconnect]
    (fun e he => by
      have he' : e = StreamEvent.disconnect := by simpa using he
      subst he'
      decide)
